import Mathlib

/-!
A shallow embedding of `src/main.py`, a FastAPI backend proxy
(products listing over a document store, PayPal order create/capture,
currency conversion, Gemini email generation), together with proofs of
the specification's claims about it.

Modelling conventions:
* Outbound HTTP calls are modelled by passing the provider's response
  (`HttpResp`) to the handler explicitly; each handler also returns the
  list of outbound calls it performed (`Call`), so "no network call"
  is the trace being `[]`.
* A handler outcome is either a successful JSON body, a raised
  `HTTPException` (status plus the `detail` string FastAPI serialises
  as a `\x7bdetail: message\x7d` body), or an uncaught Python exception
  (which FastAPI surfaces as a generic 500 internal server error).
* `requests.Response.raise_for_status` raises exactly for statuses in
  `[400, 600)`; this is embedded as `raisesForStatus`.
* Python `float` values and arithmetic are embedded exactly: every
  finite binary64 value is a rational `m * 2^e`, and `nearestDouble`
  rounds a rational to the nearest 53-significant-bit value with ties
  to even, which is precisely IEEE-754 round-to-nearest-even for
  values in the normal range. `float(s)` is the correctly-rounded
  parse of the literal (fixed-point or exponent form, with Python's
  digit-group underscores and surrounding whitespace), and `+`/`*` on
  floats are correctly-rounded rational operations, as IEEE requires.
  `f"\x7btotal:.2f\x7d"` is the exact half-even two-decimal rendering of
  the double's value, which is what Python prints. Limits of the
  model, none of which a claim reaches: the exponent is unbounded (no
  overflow to `inf`, no subnormal truncation below `2^-1022`), and the
  non-numeric literals `inf`/`nan` do not parse.
-/

namespace MyBe

/-- JSON values, as produced by `response.json()` and handler returns. -/
inductive Json where
  | null
  | bool (b : Bool)
  | num (q : Rat)
  | str (s : String)
  | arr (elems : List Json)
  | obj (fields : List (String × Json))

/-- The top-level keys of a JSON object (`[]` for non-objects). -/
def jsonObjKeys : Json → List String
  | .obj kvs => kvs.map Prod.fst
  | _ => []

/-- Python `d.get(key, dflt)`: on a dict, look the key up with a default;
on any non-dict value `.get` raises `AttributeError` (an uncaught
exception in the source, since only `requests.exceptions.HTTPError`
is caught). -/
def jsonDictGet (j : Json) (key : String) (dflt : Json) : Except String Json :=
  match j with
  | .obj kvs => .ok ((kvs.lookup key).getD dflt)
  | _ => .error "AttributeError: .get on non-dict response body"

/-- Python `d[key]` subscription: `KeyError` when the key is absent,
`TypeError` when the value is not a dict. -/
def jsonIndex (j : Json) (key : String) : Except String Json :=
  match j with
  | .obj kvs =>
      match kvs.lookup key with
      | some v => .ok v
      | none => .error ("KeyError: " ++ key)
  | _ => .error "TypeError: subscript on non-dict response body"

/-- An HTTP response from an external provider: status code, raw body
text (`response.text`, used in error messages) and parsed JSON body
(`response.json()`). Bodies that fail JSON decoding are outside the
model; no claim exercises them. -/
structure HttpResp where
  status : Nat
  text : String
  body : Json

/-- Python `requests.Response.raise_for_status` raises `HTTPError` exactly for
client-error (4xx) and server-error (5xx) statuses. -/
def raisesForStatus (status : Nat) : Bool :=
  decide (400 ≤ status) && decide (status < 600)

/-- An outbound call performed by a handler, in order. -/
inductive Call where
  | tokenCall
  | orderCall (payload : Json)
  | captureCall (orderId : String)
  | rateCall (fromCurrency : String)
  | geminiCall (prompt : String)

/-- What a route invocation produces:
* `ok body` — HTTP 200 with a JSON body;
* `httpError status detail` — a raised `HTTPException`, serialised by
  FastAPI as the given status with body `\x7b"detail": detail\x7d`;
* `uncaught msg` — an uncaught Python exception, surfaced by FastAPI
  as a generic 500 internal server error (no `detail` envelope). -/
inductive Outcome where
  | ok (body : Json)
  | httpError (status : Nat) (detail : String)
  | uncaught (msg : String)

/-- Rational addition written out over numerators and denominators
(`Rat.divInt` form). Kernel-reducible, unlike the library `+` on `Rat`
(which is `@[irreducible]`); `ratAdd_eq_add` below proves it is
exactly `+`. -/
def ratAdd (a b : Rat) : Rat :=
  Rat.divInt (a.num * (b.den : Int) + b.num * (a.den : Int)) ((a.den : Int) * (b.den : Int))

/-- Multiplication of a rational by an integer, in `Rat.divInt` form.
Kernel-reducible; `ratMulInt_eq_mul` below proves it is exactly
`a * (k : Rat)`. -/
def ratMulInt (a : Rat) (k : Int) : Rat :=
  Rat.divInt (a.num * k) (a.den : Int)

/-- Rational multiplication in `Rat.divInt` form. Kernel-reducible;
`ratMul_eq_mul` below proves it is exactly `*`. -/
def ratMul (a b : Rat) : Rat :=
  Rat.divInt (a.num * b.num) ((a.den : Int) * (b.den : Int))

/-- A Python digit group: digits with single underscores allowed only
between two digits (`1_000` yes, `_1`, `1_`, `1__0` no). Accumulates
the value and counts the digits; `none` on any violation. -/
def digitGroupCore (acc cnt : Nat) : List Char → Option (Nat × Nat)
  | [] => some (acc, cnt)
  | '_' :: c :: rest =>
      if c.isDigit then digitGroupCore (acc * 10 + (c.toNat - 48)) (cnt + 1) rest else none
  | c :: rest =>
      if c.isDigit then digitGroupCore (acc * 10 + (c.toNat - 48)) (cnt + 1) rest else none

/-- A non-empty digit group must begin with a digit (so a leading
underscore is rejected). Returns (value, digit count). -/
def digitGroupVal (cs : List Char) : Option (Nat × Nat) :=
  match cs with
  | [] => none
  | c :: rest =>
      if c.isDigit then digitGroupCore (c.toNat - 48) 1 rest else none

/-- The exact rational `(ip + fv / 10^fc) * 10^ev` of a parsed
mantissa and exponent, in `Rat.divInt` form. -/
def decValue (ip fv fc : Nat) (ev : Int) : Rat :=
  let m : Int := (ip * 10 ^ fc + fv : Nat)
  if 0 ≤ ev then Rat.divInt (m * 10 ^ ev.toNat) ((10 : Int) ^ fc)
  else Rat.divInt m ((10 : Int) ^ fc * 10 ^ (-ev).toNat)

/-- Mantissa of a float literal: `digits`, `digits.digits`,
`digits.`, or `.digits`, each digit run a valid digit group. -/
def parseMantissa (cs : List Char) (ev : Int) : Option Rat :=
  let ip := cs.takeWhile (fun c => c != '.')
  let rest := cs.dropWhile (fun c => c != '.')
  match rest with
  | [] =>
      match digitGroupVal ip with
      | some iv => some (decValue iv.1 0 0 ev)
      | none => none
  | _ :: fp =>
      match ip, fp with
      | [], [] => none
      | [], _ =>
          match digitGroupVal fp with
          | some fv => some (decValue 0 fv.1 fv.2 ev)
          | none => none
      | _, [] =>
          match digitGroupVal ip with
          | some iv => some (decValue iv.1 0 0 ev)
          | none => none
      | _, _ =>
          match digitGroupVal ip, digitGroupVal fp with
          | some iv, some fv => some (decValue iv.1 fv.1 fv.2 ev)
          | _, _ => none

/-- Exponent of a float literal: optional sign then a digit group. -/
def parseExp (cs : List Char) : Option Int :=
  match cs with
  | '-' :: rest => (digitGroupVal rest).map (fun p => -(p.1 : Int))
  | '+' :: rest => (digitGroupVal rest).map (fun p => (p.1 : Int))
  | _ => (digitGroupVal cs).map (fun p => (p.1 : Int))

/-- An unsigned float literal: mantissa, optionally `e`/`E` and an
exponent. -/
def parseUnsignedLit (cs : List Char) : Option Rat :=
  let mant := cs.takeWhile (fun c => c != 'e' && c != 'E')
  let rest := cs.dropWhile (fun c => c != 'e' && c != 'E')
  match rest with
  | [] => parseMantissa mant 0
  | _ :: expPart =>
      match parseExp expPart with
      | none => none
      | some ev => parseMantissa mant ev

/-- Drop leading and trailing whitespace, as Python `float()` does
before parsing. -/
def stripWs (cs : List Char) : List Char :=
  ((cs.dropWhile Char.isWhitespace).reverse.dropWhile Char.isWhitespace).reverse

/-- The exact rational value of a Python float literal: optional
surrounding whitespace, optional sign, fixed-point or exponent form,
with digit-group underscores. `none` exactly when `float(s)` raises
`ValueError` (the non-finite literals `inf`/`nan` are outside the
model and also map to `none`). -/
def parseFloatLit (s : String) : Option Rat :=
  match stripWs s.data with
  | '-' :: rest => (parseUnsignedLit rest).map (fun r => -r)
  | '+' :: rest => parseUnsignedLit rest
  | cs => parseUnsignedLit cs

/-- Floor of log2 by structural recursion on a fuel argument (so it
kernel-reduces); `fuel ≥ log2 n` steps suffice and callers pass `n`
itself. -/
def log2Fuel : Nat → Nat → Nat
  | 0, _ => 0
  | fuel + 1, n => if n ≤ 1 then 0 else log2Fuel fuel (n / 2) + 1

/-- Floor of log2 of a positive natural. -/
def floorLog2 (n : Nat) : Nat := log2Fuel n n

/-- Floor of log2 of the positive rational `n / d`: the candidate
`⌊log2 n⌋ - ⌊log2 d⌋` is off by at most one, fixed by a single
comparison `n / d ≥ 2^e`. -/
def ratFloorLog2 (n d : Nat) : Int :=
  let e0 : Int := (floorLog2 n : Int) - (floorLog2 d : Int)
  if d * 2 ^ e0.toNat ≤ n * 2 ^ (-e0).toNat then e0 else e0 - 1

/-- Round `n / d` (with `d > 0`) to the nearest natural, ties to
even. -/
def roundNatHalfEven (n d : Nat) : Nat :=
  let f := n / d
  let r := n % d
  if 2 * r < d then f
  else if d < 2 * r then f + 1
  else if f % 2 = 0 then f else f + 1

/-- The IEEE-754 binary64 value nearest to a rational, as an exact
rational: the magnitude is scaled into `[2^52, 2^53)` and rounded to
an integer significand with ties to even — round-to-nearest-even at
53 significant bits, exactly the double rounding Python applies on
parsing, multiplication and addition. The exponent is unbounded (no
overflow or subnormals; both are far outside every claim's data). -/
def nearestDouble (q : Rat) : Rat :=
  if q.num = 0 then 0
  else
    let n := q.num.natAbs
    let d := q.den
    let e := ratFloorLog2 n d
    let s : Int := 52 - e
    let bigN := n * 2 ^ s.toNat
    let bigD := d * 2 ^ (-s).toNat
    let m := roundNatHalfEven bigN bigD
    let mag : Rat := Rat.divInt ((m * 2 ^ (-s).toNat : Nat) : Int) ((2 : Int) ^ s.toNat)
    if q.num < 0 then -mag else mag

/-- Python `float(s)`: the literal's exact value correctly rounded to
the nearest binary64, or `none` for a `ValueError`. -/
def parseDecimal (s : String) : Option Rat :=
  (parseFloatLit s).map nearestDouble

/-- Python `int` → `float` conversion: correctly rounded (exact below
`2^53`). -/
def intToDouble (k : Int) : Rat := nearestDouble (k : Rat)

/-- IEEE-754 binary64 addition: compute exactly, round once. -/
def floatAdd (a b : Rat) : Rat := nearestDouble (ratAdd a b)

/-- IEEE-754 binary64 multiplication: compute exactly, round once. -/
def floatMul (a b : Rat) : Rat := nearestDouble (ratMul a b)

/-- Round `100 * x` to the nearest integer, ties to even — the number
of cents Python's `f"\x7bx:.2f\x7d"` prints. Written with integer
arithmetic on the numerator and denominator so it kernel-reduces:
`f` is `⌊100x⌋` and `twice` is the sign of `(100x - f) - 1/2`. -/
def roundCentsHalfEven (x : Rat) : Int :=
  let n : Int := 100 * x.num
  let d : Int := (x.den : Int)
  let f := Int.fdiv n d
  let twice := 2 * n - (2 * f + 1) * d
  if twice < 0 then f
  else if 0 < twice then f + 1
  else if f % 2 = 0 then f else f + 1

/-- Left-pad a two-digit fractional part. -/
def padTwo (n : Nat) : String :=
  if n < 10 then "0" ++ toString n else toString n

/-- Python `f"\x7bx:.2f\x7d"` on the idealised rational value: round
half-to-even at two decimal places and print with exactly two
fractional digits (a negative value rounding to zero keeps its
sign, as the float formatting does). -/
def formatTwoDec (x : Rat) : String :=
  let c := roundCentsHalfEven x
  if c < 0 then
    "-" ++ toString ((-c).toNat / 100) ++ "." ++ padTwo ((-c).toNat % 100)
  else if c = 0 && decide (x.num < 0) then
    "-0.00"
  else
    toString (c.toNat / 100) ++ "." ++ padTwo (c.toNat % 100)

/-- Source `class CartItem(BaseModel)`: name, quantity (int), price (str). -/
structure CartItem where
  name : String
  quantity : Int
  price : String

/-- Source `class OrderCaptureRequest(BaseModel)`. -/
structure OrderCaptureRequest where
  order_id : String

/-- Source `class GeminiRequest(BaseModel)`. -/
structure GeminiRequest where
  prompt : String

/-- Source `get_paypal_access_token()`: posts the client-credentials exchange
(the caller records the `tokenCall`), raises `HTTPException(500, ...)`
embedding `err.response.text` on a 4xx/5xx status, otherwise returns
`response.json()["access_token"]`; a missing key or non-dict body is
an uncaught `KeyError`/`TypeError` (only `HTTPError` is caught). -/
def get_paypal_access_token (resp : HttpResp) : Except Outcome Json :=
  if raisesForStatus resp.status then
    .error (.httpError 500 ("Failed to get PayPal token: " ++ resp.text))
  else
    match jsonIndex resp.body "access_token" with
    | .ok tok => .ok tok
    | .error e => .error (.uncaught e)

/-- One step of the source's running total: the item's parsed price
times its quantity (a float × int multiply), float-added to the
accumulator. -/
def totalStep (acc : Rat) (item : CartItem) : Rat :=
  floatAdd acc (floatMul ((parseDecimal item.price).getD 0) (intToDouble item.quantity))

/-- Source `sum(float(item['price']) * int(item['quantity']) for item
in ...)`: the generator is consumed left to right, so the first
unparsable price raises `ValueError`; each product and each running
addition is a correctly-rounded binary64 operation (`sum` starts from
integer 0, whose float addition is exact). -/
def computeTotalAux (acc : Rat) : List CartItem → Except String Rat
  | [] => .ok acc
  | item :: rest =>
      match parseDecimal item.price with
      | none =>
          .error ("ValueError: could not convert string to float: " ++ item.price)
      | some p => computeTotalAux (floatAdd acc (floatMul p (intToDouble item.quantity))) rest

/-- The source's cart total, starting the sum at 0. -/
def computeTotal (cart : List CartItem) : Except String Rat :=
  computeTotalAux 0 cart

/-- The specification-level description of what the program computes:
the left-to-right binary64 sum of price × quantity over the cart. -/
def doubleCartSum (cart : List CartItem) : Rat :=
  cart.foldl totalStep 0

/-- The exact mathematical total of a cart: Σ over items of the
literal (unrounded) price value × quantity — the quantity C1 compares
the program against. Built from the kernel-reducible rational
operations; `cartSum_eq_sum` below restates it with `*`, `+` and
`List.sum`. -/
def cartSum (cart : List CartItem) : Rat :=
  cart.foldr (fun item acc => ratAdd (ratMulInt ((parseFloatLit item.price).getD 0) item.quantity) acc) 0

/-- Python `None` serialises to JSON `null`; a present string stays a
string (the payee email comes from the environment and may be unset). -/
def jsonOfOptStr : Option String → Json
  | none => .null
  | some s => .str s

/-- The order-creation payload built by `create_paypal_order`: intent
CAPTURE, one USD purchase unit with the formatted total and the
configured payee email, and the fixed application context. -/
def orderPayload (payeeEmail : Option String) (valueStr : String) : Json :=
  .obj [("intent", .str "CAPTURE"),
        ("purchase_units", .arr [.obj [
          ("amount", .obj [("currency_code", .str "USD"), ("value", .str valueStr)]),
          ("payee", .obj [("email_address", jsonOfOptStr payeeEmail)])]]),
        ("application_context", .obj [
          ("return_url", .str "https://example.com/return"),
          ("cancel_url", .str "https://example.com/cancel")])]

/-- The PayPal-facing environment of a request: the provider's reply to
the token call, its reply to the order or capture call, and the
configured `PAYPAL_SANDBOX_EMAIL`. -/
structure PaypalEnv where
  tokenResp : HttpResp
  orderResp : HttpResp
  sandboxEmail : Option String

/-- Source `create_paypal_order(cart_items)`: acquires a fresh token (first
call), computes the cart total, posts the order payload (second call),
and returns the provider's order object verbatim; a 4xx/5xx order
reply raises `HTTPException(500, ...)` embedding the provider text. -/
def create_paypal_order (env : PaypalEnv) (cart_items : List CartItem) :
    Outcome × List Call :=
  match get_paypal_access_token env.tokenResp with
  | .error out => (out, [.tokenCall])
  | .ok _ =>
      match computeTotal cart_items with
      | .error e => (.uncaught e, [.tokenCall])
      | .ok total =>
          let payload := orderPayload env.sandboxEmail (formatTwoDec total)
          if raisesForStatus env.orderResp.status then
            (.httpError 500 ("Failed to create PayPal order: " ++ env.orderResp.text),
             [.tokenCall, .orderCall payload])
          else
            (.ok env.orderResp.body, [.tokenCall, .orderCall payload])

/-- Source `capture_paypal_order(order_id)`: acquires a fresh token, posts the
capture call, and returns the provider's capture object verbatim; a
4xx/5xx capture reply raises `HTTPException(500, ...)`. -/
def capture_paypal_order (tokenResp captureResp : HttpResp) (order_id : String) :
    Outcome × List Call :=
  match get_paypal_access_token tokenResp with
  | .error out => (out, [.tokenCall])
  | .ok _ =>
      if raisesForStatus captureResp.status then
        (.httpError 500 ("Failed to capture PayPal order: " ++ captureResp.text),
         [.tokenCall, .captureCall order_id])
      else
        (.ok captureResp.body, [.tokenCall, .captureCall order_id])

/-- Route `POST /api/paypal/capture-order`: delegates to
`capture_paypal_order` with the request's `order_id`. -/
def capture_order (tokenResp captureResp : HttpResp) (request : OrderCaptureRequest) :
    Outcome × List Call :=
  capture_paypal_order tokenResp captureResp request.order_id

/-- A Firestore query as issued by `get_products`: the collection,
the `order_by` field, `limit` and `offset`. -/
structure FirestoreQuery where
  collection : String
  orderByField : String
  limit : Int
  offset : Int
deriving DecidableEq

/-- Source `\x7b"id": doc.id, **doc.to_dict()\x7d`: the `id` key comes first and a
document field named `id` overrides the document key, per Python dict
literal merge semantics. -/
def docToProduct (docId : String) (fields : List (String × Json)) : Json :=
  .obj (("id", (fields.lookup "id").getD (.str docId)) ::
        fields.filter (fun kv => kv.1 != "id"))

/-- Route `GET /api/products`: 500 when the database handle was never
established; otherwise queries the `products` collection ordered by
`name` with `limit = page_size` and `offset = (page - 1) * page_size`,
returning the documents with their ids. The issued query (if any) is
returned alongside. The store itself is an oracle from queries to
(document id, fields) pairs. -/
def get_products (dbConnected : Bool)
    (store : FirestoreQuery → List (String × List (String × Json)))
    (page : Int := 1) (page_size : Int := 50) :
    Outcome × Option FirestoreQuery :=
  if !dbConnected then
    (.httpError 500 "Database not connected", none)
  else
    let query : FirestoreQuery :=
      { collection := "products", orderByField := "name",
        limit := page_size, offset := (page - 1) * page_size }
    let docs := store query
    (.ok (.arr (docs.map (fun d => docToProduct d.1 d.2))), some query)

/-- Route `GET /api/convert-currency`: returns `\x7b"rate": 1\x7d` with no outbound
call when the currencies coincide; otherwise performs one rate call,
maps a 4xx/5xx reply to `HTTPException(500, ...)` with the provider
text, reads `response.json().get("rates", \x7b\x7d)`, raises
`HTTPException(404, ...)` when the target currency is absent from the
table, and otherwise returns the `\x7bfrom, to, rate\x7d` envelope. A
non-dict JSON body makes `.get` raise an uncaught `AttributeError`;
a non-dict `rates` value makes the membership test raise (`in` on a
number is a `TypeError`; string/list membership is not modelled as no
claim reaches it). -/
def get_exchange_rate (rateResp : HttpResp) (from_currency to_currency : String) :
    Outcome × List Call :=
  if from_currency = to_currency then
    (.ok (.obj [("rate", .num 1)]), [])
  else
    let calls := [Call.rateCall from_currency]
    if raisesForStatus rateResp.status then
      (.httpError 500 ("Failed to get exchange rate: " ++ rateResp.text), calls)
    else
      match jsonDictGet rateResp.body "rates" (.obj []) with
      | .error e => (.uncaught e, calls)
      | .ok rates =>
          match rates with
          | .obj table =>
              match table.lookup to_currency with
              | none =>
                  (.httpError 404
                    ("Target currency '" ++ to_currency ++ "' not found."), calls)
              | some rate =>
                  (.ok (.obj [("from", .str from_currency),
                              ("to", .str to_currency),
                              ("rate", rate)]), calls)
          | _ => (.uncaught "TypeError: membership test on non-dict rates", calls)

/-- Python truthiness of the `GEMINI_API_KEY` environment value:
`not GEMINI_API_KEY` is true when the variable is unset (`None`) or
empty. -/
def geminiKeyFalsy : Option String → Bool
  | none => true
  | some s => s.isEmpty

/-- Route `POST /api/gemini/generate-email`: raises `HTTPException(503, ...)`
before any outbound call when no Gemini credential was configured at
startup; otherwise performs one generation call, wrapping success in
`\x7bsuccess, emailContent\x7d` and any provider failure in
`HTTPException(500, ...)` with the underlying message. -/
def generate_gemini_email (geminiApiKey : Option String)
    (genResult : Except String String) (request : GeminiRequest) :
    Outcome × List Call :=
  if geminiKeyFalsy geminiApiKey then
    (.httpError 503 "Gemini AI client not configured on backend.", [])
  else
    match genResult with
    | .ok text =>
        (.ok (.obj [("success", .bool true), ("emailContent", .str text)]),
         [.geminiCall request.prompt])
    | .error e =>
        (.httpError 500 ("Failed to generate email content: " ++ e),
         [.geminiCall request.prompt])

/-- Route `GET /`: fixed liveness payload. -/
def read_root : Outcome :=
  .ok (.obj [("message", .str "Server is running")])

/-- A provider token reply that succeeds. -/
def tokenRespOk : HttpResp := ⟨200, "", .obj [("access_token", .str "tok")]⟩

/-- A provider order-creation reply that succeeds. -/
def orderRespOk : HttpResp := ⟨201, "created", .obj [("id", .str "ORDER1")]⟩

/-- A PayPal environment in which both provider calls succeed and no
sandbox email is configured. -/
def cEnvOk : PaypalEnv := ⟨tokenRespOk, orderRespOk, none⟩

/- Helper lemmas. -/

/-- The operation `ratAdd` is ordinary rational addition. -/
theorem ratAdd_eq_add (a b : Rat) : ratAdd a b = a + b := by
  rw [ratAdd]
  conv_rhs => rw [← Rat.num_divInt_den a, ← Rat.num_divInt_den b]
  rw [Rat.divInt_add_divInt _ _ (Int.natCast_ne_zero.mpr a.den_nz)
    (Int.natCast_ne_zero.mpr b.den_nz)]

/-- The operation `ratMulInt` is ordinary multiplication by an integer. -/
theorem ratMulInt_eq_mul (a : Rat) (k : Int) : ratMulInt a k = a * (k : Rat) := by
  rw [ratMulInt]
  conv_rhs => rw [← Rat.num_divInt_den a, Rat.intCast_eq_divInt]
  rw [Rat.divInt_mul_divInt _ _ (Int.natCast_ne_zero.mpr a.den_nz) one_ne_zero, mul_one]

/-- The operation `ratMul` is ordinary rational multiplication. -/
theorem ratMul_eq_mul (a b : Rat) : ratMul a b = a * b := by
  rw [ratMul]
  conv_rhs => rw [← Rat.num_divInt_den a, ← Rat.num_divInt_den b]
  rw [Rat.divInt_mul_divInt _ _ (Int.natCast_ne_zero.mpr a.den_nz)
    (Int.natCast_ne_zero.mpr b.den_nz)]

/-- The claim-side exact total is the textbook sum Σ literal price ×
quantity, written with the standard rational operations. -/
theorem cartSum_eq_sum (cart : List CartItem) :
    cartSum cart =
      (cart.map (fun item =>
        ((parseFloatLit item.price).getD 0) * (item.quantity : Rat))).sum := by
  induction cart with
  | nil => rfl
  | cons item rest ih =>
      simp only [cartSum] at ih ⊢
      simp only [ratAdd_eq_add, ratMulInt_eq_mul] at ih ⊢
      simp [ih]

/-- When every price in the cart parses, the source's running total is
the left-to-right binary64 fold of price × quantity over the cart. -/
theorem computeTotalAux_ok :
    ∀ (cart : List CartItem) (acc : Rat),
      (∀ item ∈ cart, (parseDecimal item.price).isSome) →
      computeTotalAux acc cart = .ok (cart.foldl totalStep acc)
  | [], _, _ => rfl
  | item :: rest, acc, h => by
      obtain ⟨p, hp⟩ := Option.isSome_iff_exists.mp (h item (List.mem_cons_self ..))
      have ih := computeTotalAux_ok rest (totalStep acc item)
        (fun it hit => h it (List.mem_cons_of_mem _ hit))
      simp only [totalStep, hp, Option.getD_some] at ih
      simp [computeTotalAux, hp, ih, totalStep]

/-- When every price in the cart parses, the source's total is the
binary64 sum of the cart. -/
theorem computeTotal_ok (cart : List CartItem)
    (h : ∀ item ∈ cart, (parseDecimal item.price).isSome) :
    computeTotal cart = .ok (doubleCartSum cart) :=
  computeTotalAux_ok cart 0 h

/-- Whenever the token call succeeds and every price parses,
`create_paypal_order` performs exactly the token call followed by the
order call, whose payload carries the formatted binary64 cart sum. -/
theorem create_order_calls (env : PaypalEnv) (cart : List CartItem) (tok : Json)
    (htok : get_paypal_access_token env.tokenResp = .ok tok)
    (hparse : ∀ item ∈ cart, (parseDecimal item.price).isSome) :
    (create_paypal_order env cart).2 =
      [.tokenCall, .orderCall (orderPayload env.sandboxEmail (formatTwoDec (doubleCartSum cart)))] := by
  simp only [create_paypal_order, htok, computeTotal_ok cart hparse]
  split <;> rfl

/-- C1 counterexample: the in-scope cart
`[\x7bname:"A", quantity:1, price:"0.615"\x7d]` (non-negative price and
quantity) refutes the exact-sum claim: the program computes in
binary64, where `float("0.615")` is `0.61499999999999999...`, so the
total sent is `"0.61"`, while the exact sum 0.615 formatted to two
decimal places is `"0.62"`. -/
theorem C1_counterexample :
    parseFloatLit "0.615" = some (Rat.divInt 615 1000) ∧
    (0 : Rat) ≤ Rat.divInt 615 1000 ∧
    (create_paypal_order cEnvOk [⟨"A", 1, "0.615"⟩]).2 =
      [.tokenCall, .orderCall (orderPayload none "0.61")] ∧
    formatTwoDec (cartSum [⟨"A", 1, "0.615"⟩]) = "0.62" ∧
    ("0.61" : String) ≠ "0.62" :=
  ⟨by decide, by decide, rfl, by decide, by decide⟩

/-- C1 as amended: for every cart of line items with non-negative
prices and quantities, the total sent by create-order to the payment
provider equals the sum over all items of (price × quantity)
evaluated in IEEE-754 binary64 arithmetic — Python float semantics,
summed left to right — formatted to exactly two decimal places; for
carts whose values are exactly representable this is the exact sum,
and in particular the cart `[\x7bname:"A", quantity:2, price:"3.50"\x7d]`
yields the total string `"7.00"`. -/
theorem C1_create_order_total (env : PaypalEnv) (cart : List CartItem) (tok : Json)
    (htok : get_paypal_access_token env.tokenResp = .ok tok)
    (hitems : ∀ item ∈ cart,
      ∃ p, parseDecimal item.price = some p ∧ 0 ≤ p ∧ 0 ≤ item.quantity) :
    computeTotal cart = .ok (doubleCartSum cart) ∧
    (create_paypal_order env cart).2 =
      [.tokenCall, .orderCall (orderPayload env.sandboxEmail (formatTwoDec (doubleCartSum cart)))] ∧
    (create_paypal_order cEnvOk [⟨"A", 2, "3.50"⟩]).2 =
      [.tokenCall, .orderCall (orderPayload none "7.00")] := by
  have hparse : ∀ item ∈ cart, (parseDecimal item.price).isSome := by
    intro it hit
    obtain ⟨p, hp, -, -⟩ := hitems it hit
    simp [hp]
  exact ⟨computeTotal_ok cart hparse, create_order_calls env cart tok htok hparse, rfl⟩

/-- Witness for C1 (amended): the concrete cart `[("A", 2, "3.50")]`
satisfies the hypotheses, the payload sent carries the formatted
binary64 cart sum, and — 3.5 and 7 being exactly representable — that
string is `"7.00"`, the exact sum formatted. -/
theorem C1_create_order_total_witness :
    (parseDecimal "3.50" = some (Rat.divInt 7 2) ∧ (0 : Rat) ≤ Rat.divInt 7 2) ∧
    computeTotal [⟨"A", 2, "3.50"⟩] = .ok (doubleCartSum [⟨"A", 2, "3.50"⟩]) ∧
    (create_paypal_order cEnvOk [⟨"A", 2, "3.50"⟩]).2 =
      [.tokenCall, .orderCall (orderPayload none (formatTwoDec (doubleCartSum [⟨"A", 2, "3.50"⟩])))] ∧
    formatTwoDec (doubleCartSum [⟨"A", 2, "3.50"⟩]) = "7.00" := by
  have h := C1_create_order_total cEnvOk [⟨"A", 2, "3.50"⟩] (.str "tok") rfl
    (by intro it hit
        exact ⟨Rat.divInt 7 2, by
          simp only [List.mem_singleton] at hit; subst hit; decide⟩)
  exact ⟨⟨by decide, by decide⟩, h.1, h.2.1, by decide⟩

/-- C2: for every pagination input with page ≥ 1 and page_size ≥ 1,
the products listing queries the catalog collection with exactly
limit = page_size and offset = (page − 1) × page_size, ordered by
the name field. -/
theorem C2_products_query
    (store : FirestoreQuery → List (String × List (String × Json)))
    (page page_size : Int) (hpage : 1 ≤ page) (hsize : 1 ≤ page_size) :
    (get_products true store page page_size).2 =
      some ⟨"products", "name", page_size, (page - 1) * page_size⟩ := by
  simp [get_products]

/-- Witness for C2: page 2 with page size 10 queries `products`
ordered by `name` with limit 10 and offset 10. -/
theorem C2_products_query_witness :
    (1:Int) ≤ 2 ∧ (1:Int) ≤ 10 ∧
    (get_products true (fun _ => []) 2 10).2 = some ⟨"products", "name", 10, 10⟩ :=
  ⟨by decide, by decide, C2_products_query (fun _ => []) 2 10 (by decide) (by decide)⟩

/-- C3: for every pair of equal currency codes, the
currency-conversion operation performs no outbound network call
(empty call trace) and returns rate exactly 1. -/
theorem C3_same_currency_short_circuit (rateResp : HttpResp)
    (from_currency to_currency : String) (h : from_currency = to_currency) :
    get_exchange_rate rateResp from_currency to_currency =
      (.ok (.obj [("rate", .num 1)]), []) := by
  simp [get_exchange_rate, h]

/-- Witness for C3: `USD → USD` answers rate 1 with an empty call
trace, whatever the provider would have replied. -/
theorem C3_same_currency_short_circuit_witness :
    ("USD" : String) = "USD" ∧
    get_exchange_rate ⟨500, "down", .null⟩ "USD" "USD" =
      (.ok (.obj [("rate", .num 1)]), []) :=
  ⟨rfl, C3_same_currency_short_circuit ⟨500, "down", .null⟩ "USD" "USD" rfl⟩

/-- C4 counterexample: when `from_currency = to_currency` the route
succeeds with the body `\x7b"rate": 1\x7d`, whose only key is `rate` — the
claimed three-key `\x7bfrom, to, rate\x7d` envelope does not hold for the
equal-currency case. -/
theorem C4_counterexample :
    (get_exchange_rate ⟨200, "", .null⟩ "USD" "USD").1 = .ok (.obj [("rate", .num 1)]) ∧
    jsonObjKeys (.obj [("rate", Json.num 1)]) = ["rate"] ∧
    "from" ∉ jsonObjKeys (.obj [("rate", Json.num 1)]) :=
  ⟨rfl, rfl, by decide⟩

/-- C4 as amended: a successful conversion with distinct currencies
carries exactly the keys `from`, `to`, `rate`; with equal currencies
the success body is `\x7b"rate": 1\x7d` (key `rate` only). -/
theorem C4_success_envelope (rateResp : HttpResp) (from_currency to_currency : String) :
    (from_currency = to_currency →
      (get_exchange_rate rateResp from_currency to_currency).1 =
        .ok (.obj [("rate", .num 1)])) ∧
    (from_currency ≠ to_currency →
      ∀ body, (get_exchange_rate rateResp from_currency to_currency).1 = .ok body →
        jsonObjKeys body = ["from", "to", "rate"]) := by
  constructor
  · intro h
    simp [get_exchange_rate, h]
  · intro h body hbody
    unfold get_exchange_rate at hbody
    rw [if_neg h] at hbody
    split at hbody
    · exact nomatch hbody
    · split at hbody
      · exact nomatch hbody
      · split at hbody
        · split at hbody
          · exact nomatch hbody
          · cases hbody
            rfl
        · exact nomatch hbody

/-- Witness for C4 (amended): with distinct currencies and a rate
table containing the target, the success body has exactly the keys
`from`, `to`, `rate`. -/
theorem C4_success_envelope_witness :
    ("USD" : String) ≠ "EUR" ∧
    (get_exchange_rate ⟨200, "", .obj [("rates", .obj [("EUR", .num (Rat.divInt 9 10))])]⟩
        "USD" "EUR").1 =
      .ok (.obj [("from", .str "USD"), ("to", .str "EUR"), ("rate", .num (Rat.divInt 9 10))]) ∧
    jsonObjKeys (.obj [("from", Json.str "USD"), ("to", Json.str "EUR"),
        ("rate", Json.num (Rat.divInt 9 10))]) = ["from", "to", "rate"] :=
  ⟨by decide, rfl,
    (C4_success_envelope ⟨200, "", .obj [("rates", .obj [("EUR", .num (Rat.divInt 9 10))])]⟩
        "USD" "EUR").2 (by decide) _ rfl⟩

/-- C5 counterexample: the claim ranges over all non-2xx provider
statuses, but `raise_for_status` only raises for 4xx/5xx. A token
reply with status 304 — non-2xx — and a well-formed body lets
create-order proceed and succeed, instead of failing with 500. -/
theorem C5_counterexample :
    ¬ (200 ≤ 304 ∧ 304 ≤ 299) ∧
    raisesForStatus 304 = false ∧
    (create_paypal_order
        ⟨⟨304, "not modified", .obj [("access_token", .str "tok")]⟩, orderRespOk, none⟩
        [⟨"A", 1, "1.00"⟩]).1 = .ok (.obj [("id", .str "ORDER1")]) :=
  ⟨by decide, by decide, rfl⟩

/-- C5 as amended: for every provider token, order-creation,
order-capture, or rate call that returns a 4xx or 5xx status (the
statuses on which the HTTP client raises), the corresponding route
fails with HTTP 500 and a `\x7bdetail: message\x7d` body whose message is a
fixed prefix followed by the literal provider error response text. -/
theorem C5_upstream_error_500 :
    (∀ (tokenResp orderResp : HttpResp) (email : Option String) (cart : List CartItem),
      raisesForStatus tokenResp.status = true →
      (create_paypal_order ⟨tokenResp, orderResp, email⟩ cart).1 =
        .httpError 500 ("Failed to get PayPal token: " ++ tokenResp.text)) ∧
    (∀ (tokenResp captureResp : HttpResp) (order_id : String),
      raisesForStatus tokenResp.status = true →
      (capture_order tokenResp captureResp ⟨order_id⟩).1 =
        .httpError 500 ("Failed to get PayPal token: " ++ tokenResp.text)) ∧
    (∀ (tokenResp orderResp : HttpResp) (email : Option String) (cart : List CartItem)
        (tok : Json),
      get_paypal_access_token tokenResp = .ok tok →
      (∀ item ∈ cart, (parseDecimal item.price).isSome) →
      raisesForStatus orderResp.status = true →
      (create_paypal_order ⟨tokenResp, orderResp, email⟩ cart).1 =
        .httpError 500 ("Failed to create PayPal order: " ++ orderResp.text)) ∧
    (∀ (tokenResp captureResp : HttpResp) (order_id : String) (tok : Json),
      get_paypal_access_token tokenResp = .ok tok →
      raisesForStatus captureResp.status = true →
      (capture_order tokenResp captureResp ⟨order_id⟩).1 =
        .httpError 500 ("Failed to capture PayPal order: " ++ captureResp.text)) ∧
    (∀ (rateResp : HttpResp) (from_currency to_currency : String),
      from_currency ≠ to_currency →
      raisesForStatus rateResp.status = true →
      (get_exchange_rate rateResp from_currency to_currency).1 =
        .httpError 500 ("Failed to get exchange rate: " ++ rateResp.text)) := by
  refine ⟨?_, ?_, ?_, ?_, ?_⟩
  · intro tokenResp orderResp email cart h
    simp [create_paypal_order, get_paypal_access_token, h]
  · intro tokenResp captureResp order_id h
    simp [capture_order, capture_paypal_order, get_paypal_access_token, h]
  · intro tokenResp orderResp email cart tok htok hparse h
    simp [create_paypal_order, htok, computeTotal_ok cart hparse, h]
  · intro tokenResp captureResp order_id tok htok h
    simp [capture_order, capture_paypal_order, htok, h]
  · intro rateResp from_currency to_currency hne h
    simp [get_exchange_rate, hne, h]

/-- Witness for C5 (amended): concrete 4xx/5xx provider replies make
each route fail with 500 and the provider text embedded in the
detail. -/
theorem C5_upstream_error_500_witness :
    raisesForStatus 401 = true ∧
    raisesForStatus 422 = true ∧
    (create_paypal_order ⟨⟨401, "AUTH_FAIL", .null⟩, orderRespOk, none⟩ []).1 =
      .httpError 500 "Failed to get PayPal token: AUTH_FAIL" ∧
    (create_paypal_order ⟨tokenRespOk, ⟨422, "BAD_ORDER", .null⟩, none⟩ []).1 =
      .httpError 500 "Failed to create PayPal order: BAD_ORDER" ∧
    (capture_order tokenRespOk ⟨422, "CAP_FAIL", .null⟩ ⟨"OID"⟩).1 =
      .httpError 500 "Failed to capture PayPal order: CAP_FAIL" ∧
    (get_exchange_rate ⟨503, "RATE_DOWN", .null⟩ "USD" "EUR").1 =
      .httpError 500 "Failed to get exchange rate: RATE_DOWN" :=
  ⟨by decide, by decide,
    C5_upstream_error_500.1 ⟨401, "AUTH_FAIL", .null⟩ orderRespOk none [] (by decide),
    C5_upstream_error_500.2.2.1 tokenRespOk ⟨422, "BAD_ORDER", .null⟩ none [] (.str "tok")
      rfl (by decide) (by decide),
    C5_upstream_error_500.2.2.2.1 tokenRespOk ⟨422, "CAP_FAIL", .null⟩ "OID" (.str "tok")
      rfl (by decide),
    C5_upstream_error_500.2.2.2.2 ⟨503, "RATE_DOWN", .null⟩ "USD" "EUR" (by decide) (by decide)⟩

/-- C6: if the generative-text credential is absent at startup, every
call to the email-generation route returns HTTP 503 and performs no
outbound call, whatever the provider would have answered. -/
theorem C6_gemini_unconfigured_503 (genResult : Except String String)
    (request : GeminiRequest) :
    generate_gemini_email none genResult request =
      (.httpError 503 "Gemini AI client not configured on backend.", []) := rfl

/-- C7: with distinct currencies, a non-raising provider status and a
rate table that does not contain the target currency, the route fails
with HTTP 404. -/
theorem C7_rate_not_found_404 (rateResp : HttpResp) (from_currency to_currency : String)
    (table : List (String × Json))
    (hne : from_currency ≠ to_currency)
    (hs : raisesForStatus rateResp.status = false)
    (hrates : jsonDictGet rateResp.body "rates" (.obj []) = .ok (.obj table))
    (habsent : table.lookup to_currency = none) :
    (get_exchange_rate rateResp from_currency to_currency).1 =
      .httpError 404 ("Target currency '" ++ to_currency ++ "' not found.") := by
  simp [get_exchange_rate, hne, hs, hrates, habsent]

/-- Witness for C7: a 200 reply whose table lists only EUR makes a
USD → JPY conversion fail with 404. -/
theorem C7_rate_not_found_404_witness :
    ("USD" : String) ≠ "JPY" ∧
    raisesForStatus 200 = false ∧
    (get_exchange_rate ⟨200, "", .obj [("rates", .obj [("EUR", .num (Rat.divInt 9 10))])]⟩
        "USD" "JPY").1 =
      .httpError 404 "Target currency 'JPY' not found." :=
  ⟨by decide, by decide,
    C7_rate_not_found_404 ⟨200, "", .obj [("rates", .obj [("EUR", .num (Rat.divInt 9 10))])]⟩
      "USD" "JPY" [("EUR", .num (Rat.divInt 9 10))] (by decide) (by decide) rfl rfl⟩

/-- C8: a structurally valid create-order request whose price string
does not parse as a number raises an uncaught conversion error (a
generic internal server error), never a BadRequest 400: the price
`"abc"` passes the `CartItem` shape check (any string is accepted, no
parseability validation exists) and then blows up in `float`. -/
theorem C8_unparsable_price_uncaught :
    parseDecimal "abc" = none ∧
    (create_paypal_order cEnvOk [⟨"A", 1, "abc"⟩]).1 =
      .uncaught "ValueError: could not convert string to float: abc" ∧
    ∀ detail : String,
      (create_paypal_order cEnvOk [⟨"A", 1, "abc"⟩]).1 ≠ .httpError 400 detail :=
  ⟨by decide, rfl, fun _ h => nomatch h⟩

/-- C9: create-order enforces no sign constraint: whenever the token
call succeeds and every price merely parses (any sign), the order call
is still made with the formatted binary64 cart sum — and concretely a
quantity of −2 at price 3.50 (both exactly representable) yields the
negative total string `"-7.00"` and the order is created. -/
theorem C9_no_sign_constraint :
    (∀ (env : PaypalEnv) (cart : List CartItem) (tok : Json),
      get_paypal_access_token env.tokenResp = .ok tok →
      (∀ item ∈ cart, (parseDecimal item.price).isSome) →
      (create_paypal_order env cart).2 =
        [.tokenCall,
          .orderCall (orderPayload env.sandboxEmail (formatTwoDec (doubleCartSum cart)))]) ∧
    (create_paypal_order cEnvOk [⟨"A", -2, "3.50"⟩]).2 =
      [.tokenCall, .orderCall (orderPayload none "-7.00")] ∧
    (create_paypal_order cEnvOk [⟨"A", -2, "3.50"⟩]).1 = .ok (.obj [("id", .str "ORDER1")]) :=
  ⟨create_order_calls, rfl, rfl⟩

/-- Witness for C9: a cart with a negative quantity still satisfies
the (sign-free) hypotheses, and the order call carries the formatted
— here negative — binary64 cart sum. -/
theorem C9_no_sign_constraint_witness :
    (∃ tok, get_paypal_access_token cEnvOk.tokenResp = .ok tok) ∧
    parseDecimal "3.50" = some (Rat.divInt 7 2) ∧
    (create_paypal_order cEnvOk [⟨"A", -2, "3.50"⟩]).2 =
      [.tokenCall, .orderCall (orderPayload none (formatTwoDec (doubleCartSum [⟨"A", -2, "3.50"⟩])))] ∧
    formatTwoDec (doubleCartSum [⟨"A", -2, "3.50"⟩]) = "-7.00" := by
  refine ⟨⟨.str "tok", rfl⟩, by decide, ?_, by decide⟩
  exact C9_no_sign_constraint.1 cEnvOk [⟨"A", -2, "3.50"⟩] (.str "tok") rfl (by decide)

/-- C10 counterexample: a 2xx reply whose JSON body is not an object
(here the array `[]`) does not yield a 404 — `.get` on a non-dict
raises `AttributeError`, an uncaught exception surfaced as a generic
internal server error. -/
theorem C10_counterexample :
    raisesForStatus 200 = false ∧
    (get_exchange_rate ⟨200, "ok", .arr []⟩ "USD" "EUR").1 =
      .uncaught "AttributeError: .get on non-dict response body" ∧
    (get_exchange_rate ⟨200, "ok", .arr []⟩ "USD" "EUR").1 ≠
      .httpError 404 "Target currency 'EUR' not found." :=
  ⟨by decide, rfl, fun h => nomatch h⟩

/-- C10 as amended: if the rate provider replies with a non-raising
status and a JSON object body lacking a `rates` key, the route treats
the rate table as empty and fails with 404 for every target currency;
a non-object body instead raises an uncaught `AttributeError` (a
generic 500), not a 404. -/
theorem C10_missing_rates_404 (rateResp : HttpResp)
    (bodyFields : List (String × Json)) (from_currency to_currency : String)
    (hne : from_currency ≠ to_currency)
    (hs : raisesForStatus rateResp.status = false)
    (hbody : rateResp.body = .obj bodyFields)
    (hnorates : bodyFields.lookup "rates" = none) :
    (get_exchange_rate rateResp from_currency to_currency).1 =
      .httpError 404 ("Target currency '" ++ to_currency ++ "' not found.") := by
  simp [get_exchange_rate, hne, hs, jsonDictGet, hbody, hnorates]

/-- Witness for C10 (amended): a 200 reply with object body
`\x7b"result": "ok"\x7d` — no `rates` key — makes USD → EUR fail with
404. -/
theorem C10_missing_rates_404_witness :
    ("USD" : String) ≠ "EUR" ∧
    raisesForStatus 200 = false ∧
    (get_exchange_rate ⟨200, "", .obj [("result", .str "ok")]⟩ "USD" "EUR").1 =
      .httpError 404 "Target currency 'EUR' not found." :=
  ⟨by decide, by decide,
    C10_missing_rates_404 ⟨200, "", .obj [("result", .str "ok")]⟩ [("result", .str "ok")]
      "USD" "EUR" (by decide) (by decide) rfl rfl⟩

end MyBe
